import Mathlib

/-!
Verification of the config-to-declaration mapper in `main.go` of
devusb/tf-cdk-example.

The program reads `config.json`, unmarshals it into a `Config` struct with
the Go standard-library JSON decoder, and derives a CDKTF stack: a stack
name, an AWS provider declaration, one S3 bucket declaration with a fixed
tag map, an optional bucket-versioning declaration, and two Terraform
outputs.  We embed the data model, the relevant semantics of Go
`encoding/json` unmarshalling for this struct shape, and the derivation
performed by `main`, and prove the specified properties about them.
-/

namespace TfCdk

/-- `StorageConfig` from `main.go` (fields `bucket_name`, `enable_versioning`). -/
structure StorageConfig where
  bucket_name : String
  enable_versioning : Bool
deriving Repr, DecidableEq

/-- `Config` from `main.go` (fields `project`, `environment`, `region`, `storage`). -/
structure Config where
  project : String
  environment : String
  region : String
  storage : StorageConfig
deriving Repr, DecidableEq

/-- A well-formed JSON value, the input to `json.Unmarshal`. -/
inductive JValue where
  | str (s : String)
  | bool (b : Bool)
  | num (n : Int)
  | null
  | arr (xs : List JValue)
  | obj (fields : List (String × JValue))
deriving Repr

/-- Lowercase folding of a string, character by character (the struct tags
involved are ASCII, so ASCII folding captures the Go behaviour). -/
def lowerFold (s : String) : String :=
  ⟨s.data.map Char.toLower⟩

/-- Go `encoding/json` key matching: an incoming object key matches a struct
field tag by exact match, or failing that by a case-insensitive match. -/
def keyMatch (k tag : String) : Bool :=
  k == tag || lowerFold k == lowerFold tag

/-- One step of Go unmarshalling into a string-typed struct field: a JSON
string stores the value, JSON `null` is a no-op, anything else is a type
error. -/
def decodeStringField (cur : String) : JValue → Except String String
  | .str s => .ok s
  | .null => .ok cur
  | _ => .error "cannot unmarshal value into Go value of type string"

/-- One step of Go unmarshalling into a bool-typed struct field. -/
def decodeBoolField (cur : Bool) : JValue → Except String Bool
  | .bool b => .ok b
  | .null => .ok cur
  | _ => .error "cannot unmarshal value into Go value of type bool"

/-- Go unmarshalling of a JSON value into `StorageConfig`, starting from the
current value `cur` (unmatched keys are ignored, missing fields keep their
current — initially zero — values, later duplicate keys overwrite earlier
ones). -/
def decodeStorage (cur : StorageConfig) : JValue → Except String StorageConfig
  | .obj fields =>
      fields.foldlM
        (fun acc kv =>
          if keyMatch kv.1 "bucket_name" then do
            let s ← decodeStringField acc.bucket_name kv.2
            pure { acc with bucket_name := s }
          else if keyMatch kv.1 "enable_versioning" then do
            let b ← decodeBoolField acc.enable_versioning kv.2
            pure { acc with enable_versioning := b }
          else pure acc)
        cur
  | .null => .ok cur
  | _ => .error "cannot unmarshal value into Go value of type main.StorageConfig"

/-- Go unmarshalling of a JSON value into `Config` (the semantics of
`json.Unmarshal(configFile, &config)` in `main.go`): the top level must be a
JSON object, known keys decode into their fields, unknown keys are ignored,
and absent fields keep Go zero values. -/
def decodeConfig (cur : Config) : JValue → Except String Config
  | .obj fields =>
      fields.foldlM
        (fun acc kv =>
          if keyMatch kv.1 "project" then do
            let s ← decodeStringField acc.project kv.2
            pure { acc with project := s }
          else if keyMatch kv.1 "environment" then do
            let s ← decodeStringField acc.environment kv.2
            pure { acc with environment := s }
          else if keyMatch kv.1 "region" then do
            let s ← decodeStringField acc.region kv.2
            pure { acc with region := s }
          else if keyMatch kv.1 "storage" then do
            let st ← decodeStorage acc.storage kv.2
            pure { acc with storage := st }
          else pure acc)
        cur
  | .null => .ok cur
  | _ => .error "cannot unmarshal value into Go value of type main.Config"

/-- The Go zero value of `Config`, the state of `var config Config` before
`json.Unmarshal` runs. -/
def zeroConfig : Config :=
  { project := "", environment := "", region := "", storage := { bucket_name := "", enable_versioning := false } }

/-- The AWS provider declaration created in step 5 of `main`. -/
structure ProviderDecl where
  region : String
deriving Repr, DecidableEq

/-- The S3 bucket declaration created in step 6 of `main`: the configured
bucket name and the tag map (modelled as an association list). -/
structure BucketDecl where
  name : String
  tags : List (String × String)
deriving Repr, DecidableEq

/-- The bucket-versioning declaration optionally created in step 7 of
`main`: it is bound to `bucket.Bucket()`, which resolves to the configured
bucket name, and carries a status string. -/
structure VersioningDecl where
  bucket : String
  status : String
deriving Repr, DecidableEq

/-- The value carried by a Terraform output in step 8 of `main`:
`bucket.Bucket()` resolves to the configured bucket name (a literal
string), while `bucket.Arn()` is a reference to the provider-assigned ARN
attribute of the resource with the given logical id. -/
inductive OutputValue where
  | str (s : String)
  | arnRef (logicalId : String)
deriving Repr, DecidableEq

/-- One Terraform output binding from step 8 of `main`. -/
structure OutputBinding where
  name : String
  value : OutputValue
  description : String
deriving Repr, DecidableEq

/-- Everything `main` derives from a parsed `Config` and hands to
`app.Synth()`: stack name, provider, bucket, the (zero- or one-element)
list of versioning declarations, and the outputs, in program order. -/
structure SynthResult where
  stackName : String
  provider : ProviderDecl
  bucket : BucketDecl
  versioning : List VersioningDecl
  outputs : List OutputBinding
deriving Repr, DecidableEq

/-- Steps 4 through 8 of `main`: the pure derivation of the stack from a
parsed configuration.  Mirrors `main.go` lines 53 to 97. -/
def deriveStack (config : Config) : SynthResult :=
  let stackName := config.project ++ "-" ++ config.environment ++ "-stack"
  let fullBucketName :=
    config.project ++ "-" ++ config.environment ++ "-" ++ config.storage.bucket_name
  { stackName := stackName
  , provider := { region := config.region }
  , bucket :=
      { name := fullBucketName
      , tags :=
          [ ("Project", config.project)
          , ("Environment", config.environment)
          , ("ManagedBy", "CDKTF-JSON-Platform") ] }
  , versioning :=
      if config.storage.enable_versioning then
        [{ bucket := fullBucketName, status := "Enabled" }]
      else []
  , outputs :=
      [ { name := "bucket_name"
        , value := .str fullBucketName
        , description := "The name of the created S3 bucket" }
      , { name := "bucket_arn"
        , value := .arnRef "bucket"
        , description := "The ARN of the created S3 bucket" } ] }

/-- The content found in `config.json` when the read succeeds: either text
that is not well-formed JSON, or a well-formed JSON value. -/
inductive FileContent where
  | malformed
  | wellFormed (v : JValue)
deriving Repr

/-- The observable outcome of one run of `main`: a read failure (step 1),
a parse failure (step 2), or a successful derivation handed to
`app.Synth()`. -/
inductive RunResult where
  | readError (msg : String)
  | parseError (msg : String)
  | success (result : SynthResult)
deriving Repr, DecidableEq

/-- True exactly on the successful outcome of a run. -/
def RunResult.isSuccess : RunResult → Bool
  | .success _ => true
  | _ => false

/-- The whole of `main` as a function of the result of `os.ReadFile`:
read errors and parse errors each print a diagnostic and call
`os.Exit(1)` before anything is derived; otherwise the stack is derived
and synthesized. -/
def runMain : Except String FileContent → RunResult
  | .error e => .readError ("Error reading config.json: " ++ e)
  | .ok .malformed => .parseError "Error parsing config.json: invalid character"
  | .ok (.wellFormed v) =>
      match decodeConfig zeroConfig v with
      | .error e => .parseError ("Error parsing config.json: " ++ e)
      | .ok config => .success (deriveStack config)

/-- The process exit status of a run: `os.Exit(1)` on either failure path,
`0` on normal termination after the handoff. -/
def exitCode : RunResult → Nat
  | .readError _ => 1
  | .parseError _ => 1
  | .success _ => 0

/-- How many resource declarations a run derived: the bucket plus any
versioning declarations on success, none on a failure path (the provider
declaration is counted separately by `region`-related claims). -/
def declCount : RunResult → Nat
  | .readError _ => 0
  | .parseError _ => 0
  | .success r => 1 + r.versioning.length

/-- The validity predicate of the specification: all user-supplied string
fields of the configuration are non-empty. -/
def Config.valid (c : Config) : Prop :=
  c.project ≠ "" ∧ c.environment ≠ "" ∧ c.storage.bucket_name ≠ ""

instance (c : Config) : Decidable c.valid := by
  unfold Config.valid; infer_instance

/-- Builds the standard configuration document shape with all five fields
present, used to state parsing claims. -/
def mkConfigJson (p e r b : String) (v : Bool) : JValue :=
  .obj
    [ ("project", .str p)
    , ("environment", .str e)
    , ("region", .str r)
    , ("storage", .obj [("bucket_name", .str b), ("enable_versioning", .bool v)]) ]

end TfCdk

namespace TfCdk

/-- C3: for every valid configuration (non-empty `project`, `environment`,
and `storage.bucket_name`), the derived bucket resource name equals the
concatenation project ++ "-" ++ environment ++ "-" ++ bucket_name. -/
theorem C3_bucket_name_concat (c : Config) (h : c.valid) :
    (deriveStack c).bucket.name
      = c.project ++ "-" ++ c.environment ++ "-" ++ c.storage.bucket_name := rfl

theorem C3_bucket_name_concat_witness :
    (deriveStack ⟨"my-app", "dev", "us-west-2", ⟨"data", true⟩⟩).bucket.name
      = "my-app" ++ "-" ++ "dev" ++ "-" ++ "data" :=
  C3_bucket_name_concat ⟨"my-app", "dev", "us-west-2", ⟨"data", true⟩⟩ (by decide)

/-- C4: for every valid configuration, the derived stack identity equals
project ++ "-" ++ environment ++ "-stack". -/
theorem C4_stack_identity_concat (c : Config) (h : c.valid) :
    (deriveStack c).stackName = c.project ++ "-" ++ c.environment ++ "-stack" := rfl

theorem C4_stack_identity_concat_witness :
    (deriveStack ⟨"my-app", "dev", "us-west-2", ⟨"data", true⟩⟩).stackName
      = "my-app" ++ "-" ++ "dev" ++ "-stack" :=
  C4_stack_identity_concat ⟨"my-app", "dev", "us-west-2", ⟨"data", true⟩⟩ (by decide)

/-- C5: for every valid configuration, `enable_versioning = true` yields
exactly one versioning declaration, bound to the bucket name, with status
"Enabled"; `enable_versioning = false` yields zero versioning declarations;
and the bucket name and stack identity are the same in both cases. -/
theorem C5_versioning_conditional (c : Config) (h : c.valid) :
    (c.storage.enable_versioning = true →
      (deriveStack c).versioning = [⟨(deriveStack c).bucket.name, "Enabled"⟩]) ∧
    (c.storage.enable_versioning = false → (deriveStack c).versioning = []) ∧
    (deriveStack { c with storage := { c.storage with enable_versioning := true } }).bucket.name
      = (deriveStack { c with storage := { c.storage with enable_versioning := false } }).bucket.name ∧
    (deriveStack { c with storage := { c.storage with enable_versioning := true } }).stackName
      = (deriveStack { c with storage := { c.storage with enable_versioning := false } }).stackName := by
  refine ⟨fun hv => ?_, fun hv => ?_, rfl, rfl⟩ <;> simp [deriveStack, hv]

theorem C5_versioning_conditional_witness :
    ((⟨"my-app", "dev", "us-west-2", ⟨"data", true⟩⟩ : Config).storage.enable_versioning = true →
      (deriveStack ⟨"my-app", "dev", "us-west-2", ⟨"data", true⟩⟩).versioning
        = [⟨(deriveStack ⟨"my-app", "dev", "us-west-2", ⟨"data", true⟩⟩).bucket.name, "Enabled"⟩]) ∧
    ((⟨"my-app", "dev", "us-west-2", ⟨"data", true⟩⟩ : Config).storage.enable_versioning = false →
      (deriveStack ⟨"my-app", "dev", "us-west-2", ⟨"data", true⟩⟩).versioning = []) ∧
    (deriveStack ⟨"my-app", "dev", "us-west-2", ⟨"data", true⟩⟩).bucket.name
      = (deriveStack ⟨"my-app", "dev", "us-west-2", ⟨"data", false⟩⟩).bucket.name ∧
    (deriveStack ⟨"my-app", "dev", "us-west-2", ⟨"data", true⟩⟩).stackName
      = (deriveStack ⟨"my-app", "dev", "us-west-2", ⟨"data", false⟩⟩).stackName :=
  C5_versioning_conditional ⟨"my-app", "dev", "us-west-2", ⟨"data", true⟩⟩ (by decide)

/-- C6: for every valid configuration, the tag map of the bucket
declaration has exactly the keys Project, Environment, ManagedBy, in that
order; Project and Environment carry the configured values, and ManagedBy
carries the constant "CDKTF-JSON-Platform" on all inputs. -/
theorem C6_tags_exact (c : Config) (h : c.valid) :
    (deriveStack c).bucket.tags.map Prod.fst = ["Project", "Environment", "ManagedBy"] ∧
    (deriveStack c).bucket.tags.lookup "Project" = some c.project ∧
    (deriveStack c).bucket.tags.lookup "Environment" = some c.environment ∧
    (deriveStack c).bucket.tags.lookup "ManagedBy" = some "CDKTF-JSON-Platform" :=
  ⟨rfl, rfl, rfl, rfl⟩

theorem C6_tags_exact_witness :
    (deriveStack ⟨"my-app", "dev", "us-west-2", ⟨"data", true⟩⟩).bucket.tags.map Prod.fst
      = ["Project", "Environment", "ManagedBy"] ∧
    (deriveStack ⟨"my-app", "dev", "us-west-2", ⟨"data", true⟩⟩).bucket.tags.lookup "Project"
      = some "my-app" ∧
    (deriveStack ⟨"my-app", "dev", "us-west-2", ⟨"data", true⟩⟩).bucket.tags.lookup "Environment"
      = some "dev" ∧
    (deriveStack ⟨"my-app", "dev", "us-west-2", ⟨"data", true⟩⟩).bucket.tags.lookup "ManagedBy"
      = some "CDKTF-JSON-Platform" :=
  C6_tags_exact ⟨"my-app", "dev", "us-west-2", ⟨"data", true⟩⟩ (by decide)

/-- C8: for every valid configuration the mapper produces exactly two
output bindings, named bucket_name and bucket_arn; the first carries the
derived bucket resource name as its value, the second a reference to the
provider-assigned ARN; both descriptions are non-empty. -/
theorem C8_two_outputs (c : Config) (h : c.valid) :
    (deriveStack c).outputs.length = 2 ∧
    (deriveStack c).outputs.map OutputBinding.name = ["bucket_name", "bucket_arn"] ∧
    (deriveStack c).outputs.map OutputBinding.value
      = [.str (deriveStack c).bucket.name, .arnRef "bucket"] ∧
    (deriveStack c).outputs.map OutputBinding.description
      = ["The name of the created S3 bucket", "The ARN of the created S3 bucket"] ∧
    "The name of the created S3 bucket" ≠ "" ∧
    "The ARN of the created S3 bucket" ≠ "" :=
  ⟨rfl, rfl, rfl, rfl, by decide, by decide⟩

theorem C8_two_outputs_witness :
    (deriveStack ⟨"my-app", "dev", "us-west-2", ⟨"data", true⟩⟩).outputs.length = 2 ∧
    (deriveStack ⟨"my-app", "dev", "us-west-2", ⟨"data", true⟩⟩).outputs.map OutputBinding.name
      = ["bucket_name", "bucket_arn"] ∧
    (deriveStack ⟨"my-app", "dev", "us-west-2", ⟨"data", true⟩⟩).outputs.map OutputBinding.value
      = [.str (deriveStack ⟨"my-app", "dev", "us-west-2", ⟨"data", true⟩⟩).bucket.name, .arnRef "bucket"] ∧
    (deriveStack ⟨"my-app", "dev", "us-west-2", ⟨"data", true⟩⟩).outputs.map OutputBinding.description
      = ["The name of the created S3 bucket", "The ARN of the created S3 bucket"] ∧
    "The name of the created S3 bucket" ≠ "" ∧
    "The ARN of the created S3 bucket" ≠ "" :=
  C8_two_outputs ⟨"my-app", "dev", "us-west-2", ⟨"data", true⟩⟩ (by decide)

end TfCdk

namespace TfCdk

/-- C1 counterexample: a well-formed JSON document missing the whole
required `storage` object parses successfully — no ConfigParseError — the
process exits 0 and one resource declaration (the bucket) is derived,
contrary to the claim. -/
theorem C1_missing_field_cex :
    runMain (.ok (.wellFormed (.obj
        [("project", .str "my-app"), ("environment", .str "dev"), ("region", .str "us-west-2")])))
      = .success (deriveStack ⟨"my-app", "dev", "us-west-2", ⟨"", false⟩⟩) ∧
    exitCode (runMain (.ok (.wellFormed (.obj
        [("project", .str "my-app"), ("environment", .str "dev"), ("region", .str "us-west-2")]))))
      = 0 ∧
    declCount (runMain (.ok (.wellFormed (.obj
        [("project", .str "my-app"), ("environment", .str "dev"), ("region", .str "us-west-2")]))))
      = 1 :=
  ⟨rfl, rfl, rfl⟩

/-- C1 amended: a parse failure (non-zero exit and zero declarations)
occurs when the content is not well-formed JSON or a present field has a
mismatched JSON type; a well-formed document merely missing required
fields (for example the whole `storage` object) parses successfully with
Go zero values for the missing fields, and resource declarations are
still derived. -/
theorem C1_parse_failure_only_for_malformed (p e r : String) :
    runMain (.ok .malformed) = .parseError "Error parsing config.json: invalid character" ∧
    exitCode (runMain (.ok .malformed)) = 1 ∧
    declCount (runMain (.ok .malformed)) = 0 ∧
    runMain (.ok (.wellFormed (.obj [("storage", .str "oops")])))
      = .parseError
          "Error parsing config.json: cannot unmarshal value into Go value of type main.StorageConfig" ∧
    declCount (runMain (.ok (.wellFormed (.obj [("storage", .str "oops")])))) = 0 ∧
    runMain (.ok (.wellFormed (.obj
        [("project", .str p), ("environment", .str e), ("region", .str r)])))
      = .success (deriveStack ⟨p, e, r, ⟨"", false⟩⟩) ∧
    declCount (runMain (.ok (.wellFormed (.obj
        [("project", .str p), ("environment", .str e), ("region", .str r)]))))
      = 1 :=
  ⟨rfl, rfl, rfl, rfl, rfl, rfl, rfl⟩

/-- C2 counterexample: a document whose `project` field is the empty
string parses successfully and the run completes, although the resulting
configuration violates the non-emptiness invariant — the parse step does
succeed on an input with an empty string field, contrary to the claim. -/
theorem C2_empty_field_cex :
    runMain (.ok (.wellFormed (mkConfigJson "" "dev" "us-west-2" "data" true)))
      = .success (deriveStack ⟨"", "dev", "us-west-2", ⟨"data", true⟩⟩) ∧
    ¬ (Config.mk "" "dev" "us-west-2" ⟨"data", true⟩).valid :=
  ⟨rfl, by decide⟩

/-- C2 amended: the parse step performs no non-emptiness validation at
all — every combination of field values, the empty string included,
parses successfully, and absent string fields parse to the empty string,
so string fields are not guaranteed non-empty after a successful parse. -/
theorem C2_parse_never_validates (p e r b : String) (v : Bool) :
    decodeConfig zeroConfig (mkConfigJson p e r b v) = .ok ⟨p, e, r, ⟨b, v⟩⟩ ∧
    decodeConfig zeroConfig (.obj []) = .ok zeroConfig :=
  ⟨rfl, rfl⟩

/-- C7: when the configuration file cannot be read, the run ends in a
ConfigReadError with a diagnostic message, a non-zero exit status, and
zero derived declarations; conversely any run that reaches the handoff
(a success) exits with status 0. -/
theorem C7_read_error_fatal (e : String) (input : Except String FileContent)
    (r : SynthResult) (h : runMain input = .success r) :
    runMain (.error e) = .readError ("Error reading config.json: " ++ e) ∧
    exitCode (runMain (.error e)) ≠ 0 ∧
    declCount (runMain (.error e)) = 0 ∧
    exitCode (runMain input) = 0 := by
  refine ⟨rfl, by simp [runMain, exitCode], rfl, ?_⟩
  rw [h]; rfl

theorem C7_read_error_fatal_witness :
    runMain (.error "open config.json: no such file or directory")
      = .readError ("Error reading config.json: " ++ "open config.json: no such file or directory") ∧
    exitCode (runMain (.error "open config.json: no such file or directory")) ≠ 0 ∧
    declCount (runMain (.error "open config.json: no such file or directory")) = 0 ∧
    exitCode (runMain (.ok (.wellFormed (mkConfigJson "my-app" "dev" "us-west-2" "data" true)))) = 0 :=
  C7_read_error_fatal "open config.json: no such file or directory"
    (.ok (.wellFormed (mkConfigJson "my-app" "dev" "us-west-2" "data" true)))
    (deriveStack ⟨"my-app", "dev", "us-west-2", ⟨"data", true⟩⟩) rfl

/-- C9: a well-formed document whose `storage` object omits
`enable_versioning` parses and runs exactly like one carrying
`enable_versioning = false`: the same successful derivation, with zero
versioning declarations. -/
theorem C9_absent_versioning_defaults_false (p e r b : String) :
    runMain (.ok (.wellFormed (.obj
        [ ("project", .str p), ("environment", .str e), ("region", .str r)
        , ("storage", .obj [("bucket_name", .str b)]) ])))
      = runMain (.ok (.wellFormed (mkConfigJson p e r b false))) ∧
    runMain (.ok (.wellFormed (.obj
        [ ("project", .str p), ("environment", .str e), ("region", .str r)
        , ("storage", .obj [("bucket_name", .str b)]) ])))
      = .success (deriveStack ⟨p, e, r, ⟨b, false⟩⟩) ∧
    (deriveStack ⟨p, e, r, ⟨b, false⟩⟩).versioning = [] :=
  ⟨rfl, rfl, rfl⟩

/-- C10: two valid configurations that agree on everything except
`region` derive the same stack name, bucket declaration (name and tags),
versioning declarations, and output bindings — `region` influences only
the provider declaration. -/
theorem C10_region_noninterference (c₁ c₂ : Config) (h : c₁.valid)
    (hp : c₁.project = c₂.project) (he : c₁.environment = c₂.environment)
    (hs : c₁.storage = c₂.storage) :
    (deriveStack c₁).stackName = (deriveStack c₂).stackName ∧
    (deriveStack c₁).bucket = (deriveStack c₂).bucket ∧
    (deriveStack c₁).versioning = (deriveStack c₂).versioning ∧
    (deriveStack c₁).outputs = (deriveStack c₂).outputs ∧
    (deriveStack c₁).provider = { region := c₁.region } := by
  refine ⟨?_, ?_, ?_, ?_, rfl⟩ <;> simp [deriveStack, hp, he, hs]

theorem C10_region_noninterference_witness :
    (deriveStack ⟨"my-app", "dev", "us-west-2", ⟨"data", true⟩⟩).stackName
      = (deriveStack ⟨"my-app", "dev", "eu-central-1", ⟨"data", true⟩⟩).stackName ∧
    (deriveStack ⟨"my-app", "dev", "us-west-2", ⟨"data", true⟩⟩).bucket
      = (deriveStack ⟨"my-app", "dev", "eu-central-1", ⟨"data", true⟩⟩).bucket ∧
    (deriveStack ⟨"my-app", "dev", "us-west-2", ⟨"data", true⟩⟩).versioning
      = (deriveStack ⟨"my-app", "dev", "eu-central-1", ⟨"data", true⟩⟩).versioning ∧
    (deriveStack ⟨"my-app", "dev", "us-west-2", ⟨"data", true⟩⟩).outputs
      = (deriveStack ⟨"my-app", "dev", "eu-central-1", ⟨"data", true⟩⟩).outputs ∧
    (deriveStack ⟨"my-app", "dev", "us-west-2", ⟨"data", true⟩⟩).provider
      = { region := "us-west-2" } :=
  C10_region_noninterference
    ⟨"my-app", "dev", "us-west-2", ⟨"data", true⟩⟩
    ⟨"my-app", "dev", "eu-central-1", ⟨"data", true⟩⟩
    (by decide) rfl rfl rfl

end TfCdk
